import Mathlib

/-!
# Tooltip provider (src/src/modules/tooltips.js)

A shallow embedding of the `TooltipProvider` module: the handler registry
(`this.types`), the per-addon proxy, the dispatch queries and the widget
lifecycle.  JavaScript objects that the provider reads or writes are modelled
with their own properties and the part of their prototype chain the provider
can observe; functions supplied by addons are pure Lean functions from their
arguments to a completion.
-/

namespace Tooltips

/-! ## Values -/

/-- Heap addresses of objects created by page or addon code. -/
abbrev Ref := Nat

/-- Ids of DOM elements. -/
abbrev Elem := Nat

/-- Primitive JavaScript values (numbers are integers here). -/
inductive Plain where
  | undefined
  | null
  | bool (b : Bool)
  | num (n : Int)
  | str (s : String)
  deriving DecidableEq, Repr

/-- Values that page or addon code passes around: a primitive or a reference to
an object (plain object or function) in the heap. -/
inductive Value where
  | plain (p : Plain)
  | ref (r : Ref)
  deriving DecidableEq, Repr

/-- Values a property read can produce: a `Value` or one of the engine's
intrinsic objects reached through a prototype chain. -/
inductive JSVal where
  | plain (p : Plain)
  | ref (r : Ref)
  | objectPrototype
  | functionPrototype
  | builtin (name : String)
  deriving DecidableEq, Repr

/-- Inject a `Value` into `JSVal`. -/
def Value.toJS : Value → JSVal
  | .plain p => .plain p
  | .ref r => .ref r

/-- The JavaScript `undefined` as a `Value`. -/
abbrev Value.undefinedV : Value := .plain .undefined

/-- The JavaScript `undefined` as a `JSVal`. -/
abbrev JSVal.undefinedV : JSVal := .plain .undefined

/-- ToBoolean on primitives. -/
def Plain.truthy : Plain → Bool
  | .undefined => false
  | .null => false
  | .bool b => b
  | .num n => n != 0
  | .str s => s != ""

/-- ToBoolean: every object is truthy. -/
def JSVal.truthy : JSVal → Bool
  | .plain p => p.truthy
  | _ => true

/-- ToBoolean on a `Value`. -/
def Value.truthy (v : Value) : Bool := v.toJS.truthy

/-- The operator `a || b` on optional strings (`none` is `undefined`): `a` when it
is a non-empty string, otherwise `b`. -/
def strOr (a b : Option String) : Option String :=
  match a with
  | some s => if s != "" then some s else b
  | none => b

/-! ## DOM side: target, tip, popper options, elements -/

/-- A target element: its `dataset` maps attribute names to strings. -/
structure Target where
  id : Elem
  dataset : List (String × String)
  deriving DecidableEq, Repr

/-- Reading `target.dataset[key]`: `none` is `undefined`. -/
def Target.data (t : Target) (key : String) : Option String :=
  t.dataset.lookup key

/-- The tip object handed to handlers. -/
structure Tip where
  align : Option String
  add_class : Option String
  deriving DecidableEq, Repr

/-- Popper options: an object whose fields are primitives or nested objects
(named by an id). -/
inductive OptVal where
  | plain (p : Plain)
  | object (id : Nat)
  deriving DecidableEq, Repr

/-- The popper options object, as its list of fields. -/
abbrev PopOpts := List (String × OptVal)

/-- Assignment `obj[key] = v` on an association list of own data properties:
replace the value in place when the key exists, otherwise append. -/
def propSet {α : Type} (key : String) (v : α) : List (String × α) → List (String × α)
  | [] => [(key, v)]
  | (k, w) :: rest => if k = key then (k, v) :: rest else (k, w) :: propSet key v rest

/-- Own-property lookup in an association list. -/
def propGet {α : Type} (key : String) : List (String × α) → Option α
  | [] => none
  | (k, w) :: rest => if k = key then some w else propGet key rest

/-- Text children of created elements: a string, `undefined`, or the result of
`JSON.stringify(dataset, null, 4)` (kept symbolic). -/
inductive Text where
  | lit (s : String)
  | absent
  | json (dataset : List (String × String))
  deriving DecidableEq, Repr

/-- The result of `createElement(tag, props, child)`. -/
structure Element where
  tag : String
  className : Option String
  style : List (String × String)
  child : Text
  deriving DecidableEq, Repr

/-- Items of a returned array: an element or a primitive. -/
inductive Item where
  | elem (e : Element)
  | plain (p : Plain)
  deriving DecidableEq, Repr

/-- Values returned by calls. -/
inductive Ret where
  | value (v : JSVal)
  | object (id : Nat)
  | nodes (xs : List Item)
  | options (o : PopOpts)
  | target (t : Target)
  deriving DecidableEq, Repr

/-- How a call ends: it returns, it throws a value, it throws a TypeError raised
by the engine, or it is the (uninterpreted) call of an intrinsic function. -/
inductive Completion where
  | normal (v : Ret)
  | throw (v : Ret)
  | typeError
  | intrinsic (name : String) (target : Target) (tip : Tip) (opts : Option PopOpts)
  deriving DecidableEq, Repr

/-- Function bodies: called with `(target, tip)` or `(target, tip, options)`. -/
abbrev Fn := Target → Tip → Option PopOpts → Completion

/-- A heap object: `call` is its body when it is a function, `props` its own
data properties, all writable and enumerable (the object is extensible and has
no accessors; the read-only `name` and `length` of a function are not listed).
Its prototype is `Function.prototype` when callable and `Object.prototype`
otherwise. -/
structure HObj where
  call : Option Fn
  props : List (String × Value)

/-- The heap of handler objects. -/
abbrev Heap := Ref → HObj

/-- String-keyed members of `Object.prototype` other than the `__proto__`
accessor. -/
def objectPrototypeGet (key : String) : JSVal :=
  if key = "constructor" then .builtin "Object"
  else if key ∈ ["toString", "toLocaleString", "valueOf", "hasOwnProperty",
      "isPrototypeOf", "propertyIsEnumerable", "__defineGetter__",
      "__defineSetter__", "__lookupGetter__", "__lookupSetter__"] then
    .builtin ("Object.prototype." ++ key)
  else .undefinedV

/-- String-keyed data members of `Function.prototype`; `none` when the key is
not an own member. -/
def functionPrototypeOwn (key : String) : Option JSVal :=
  if key = "constructor" then some (.builtin "Function")
  else if key ∈ ["apply", "bind", "call", "toString"] then
    some (.builtin ("Function.prototype." ++ key))
  else if key = "length" then some (.plain (.num 0))
  else if key = "name" then some (.plain (.str ""))
  else none

/-- Property read `heap[r][key]` on a heap object: own properties, then
`Function.prototype` for a function, then `Object.prototype`, whose `__proto__`
getter answers the object's prototype. -/
def heapGet (heap : Heap) (r : Ref) (key : String) : JSVal :=
  match propGet key (heap r).props with
  | some v => v.toJS
  | none =>
    match (if ((heap r).call).isSome then functionPrototypeOwn key else none) with
    | some v => v
    | none =>
      if key = "__proto__" then
        (if ((heap r).call).isSome then .functionPrototype else .objectPrototype)
      else objectPrototypeGet key

/-- Property read `v[key]` for a value the provider holds as a handler. A
primitive has none of the fields the provider reads. -/
def getField (heap : Heap) (v : JSVal) (key : String) : JSVal :=
  match v with
  | .ref r => heapGet heap r key
  | .objectPrototype =>
    if key = "__proto__" then .plain .null else objectPrototypeGet key
  | .functionPrototype =>
    match functionPrototypeOwn key with
    | some w => w
    | none => if key = "__proto__" then .objectPrototype else objectPrototypeGet key
  | .builtin _ =>
    match functionPrototypeOwn key with
    | some w => w
    | none => if key = "__proto__" then .functionPrototype else objectPrototypeGet key
  | .plain _ => .undefinedV

/-- The call `v(target, tip, ...)`: a heap function runs its body, an intrinsic
function is left uninterpreted, `Function.prototype` returns `undefined`, and
anything else is not callable. -/
def invoke (heap : Heap) (v : JSVal) (target : Target) (tip : Tip)
    (opts : Option PopOpts) : Completion :=
  match v with
  | .ref r =>
    match (heap r).call with
    | some f => f target tip opts
    | none => .typeError
  | .builtin name => .intrinsic name target tip opts
  | .functionPrototype => .normal (.value .undefinedV)
  | .objectPrototype => .typeError
  | .plain _ => .typeError

/-! ## The registry object `this.types` -/

/-- The prototype slot of the registry object. -/
inductive Proto where
  | objectPrototype
  | null
  | object (r : Ref)
  deriving DecidableEq, Repr

/-- The registry `this.types`, created as an empty object literal: an ordinary object with own entries and a
prototype, initially `Object.prototype`. -/
structure TypesObj where
  own : List (String × Value)
  proto : Proto
  deriving DecidableEq, Repr

/-- The read `this.types[key]`: own entry first, then the prototype chain; the
`__proto__` getter inherited from `Object.prototype` answers the registry's
prototype. -/
def TypesObj.get (heap : Heap) (o : TypesObj) (key : String) : JSVal :=
  match propGet key o.own with
  | some v => v.toJS
  | none =>
    match o.proto with
    | .null => .undefinedV
    | .objectPrototype =>
      if key = "__proto__" then .objectPrototype else objectPrototypeGet key
    | .object r =>
      match propGet key (heap r).props with
      | some v => v.toJS
      | none =>
        match (if ((heap r).call).isSome then functionPrototypeOwn key else none) with
        | some v => v
        | none => if key = "__proto__" then .ref r else objectPrototypeGet key

/-- The write `this.types[key] = v`: an own entry is overwritten; otherwise the
key `__proto__` reaches the setter inherited from `Object.prototype` (unless
the prototype is null), which replaces the prototype when `v` is an object or
null and ignores any other value; every other key becomes a new own entry
(every property met on the prototype chain is taken to be writable). -/
def TypesObj.set (o : TypesObj) (key : String) (v : Value) : TypesObj :=
  match propGet key o.own with
  | some _ => { o with own := propSet key v o.own }
  | none =>
    if key = "__proto__" ∧ o.proto ≠ .null then
      match v with
      | .ref r => { o with proto := .object r }
      | .plain .null => { o with proto := .null }
      | .plain _ => o
    else { o with own := propSet key v o.own }

/-! ## Helpers imported from `utilities/object` and `utilities/dom` -/

/-- Modelled from the spec: `has(object, key)` of `utilities/object`, which is
not part of the sources at hand. The dispatch table applies a field "if handler
present & provides field": a falsy handler provides nothing, a heap object
provides its own properties, and neither a primitive nor an intrinsic object
provides any of the handler fields. -/
def has (heap : Heap) (handler : JSVal) (key : String) : Bool :=
  match handler with
  | .ref r => (propGet key (heap r).props).isSome
  | _ => false

/-- The test `typeof v === 'function'`. -/
def isFunction (heap : Heap) (v : JSVal) : Bool :=
  match v with
  | .ref r => ((heap r).call).isSome
  | .builtin _ => true
  | .functionPrototype => true
  | _ => false

/-- A call made by a dispatch query: the function and its arguments. -/
structure Call where
  callee : JSVal
  target : Target
  tip : Tip
  opts : Option PopOpts
  deriving DecidableEq, Repr

/-- What a dispatch query does: how it completes, the call it made (if any) and
the tip object as the query leaves it. -/
structure Outcome where
  result : Completion
  call : Option Call
  tip : Tip
  deriving DecidableEq, Repr

/-- Modelled from the spec: `maybe_call(fn, ctx, ...args)` of `utilities/object`,
which is not part of the sources at hand: "if the field is a function, call it
with `(target, tip)`; if a plain value, use it directly". -/
def maybe_call (heap : Heap) (fn : JSVal) (target : Target) (tip : Tip) : Outcome :=
  if isFunction heap fn then
    { result := invoke heap fn target tip none,
      call := some { callee := fn, target := target, tip := tip, opts := none },
      tip := tip }
  else { result := .normal (.value fn), call := none, tip := tip }

/-- Modelled from the spec: `createElement(tag, props, child)` of `utilities/dom`,
which is not part of the sources at hand; the element is recorded with the tag,
class name, inline style and text child it was created with. -/
def createElement (tag : String) (className : Option String)
    (style : List (String × String)) (child : Text) : Element :=
  { tag := tag, className := className, style := style, child := child }

/-! ## Provider state -/

/-- A tooltip widget instance, as constructed by `_createInstance`. -/
structure Instance where
  id : Nat
  parent : Option Elem
  klass : String
  default_type : String
  container : Option Elem
  deriving DecidableEq, Repr

/-- Observable actions on the widget primitive and the window. -/
inductive Event where
  | listen (name : String)
  | on (name : String)
  | created (inst : Instance)
  | destroyed (id : Nat)
  | cleaned (id : Nat) (types : TypesObj)
  | debug (removed : Nat) (addon_id : String)
  deriving DecidableEq, Repr

/-- The provider together with the widget instances it has constructed.
`none` in an element slot is `null` (or `undefined` before `onEnable`). -/
structure State where
  types : TypesObj
  heap : Heap
  container : Option Elem
  tip_element : Option Elem
  tips : Option Nat
  next : Nat
  live : List Instance
  trace : List Event

/-- The part of `document` the provider reads. -/
structure Document where
  sunlightRoot : Option Elem
  root : Option Elem
  clipsRoot : Option Elem
  body : Option Elem
  fullscreenElement : Option Elem
  deriving DecidableEq, Repr

/-! ## Registry operations -/

/-- The method `define(key, handler)`: `this.types[key] = handler`. -/
def define (st : State) (key : String) (handler : Value) : State :=
  { st with types := st.types.set key handler }

/-- The assignment `handler.__source = addon_id` on a heap object. -/
def stamp (heap : Heap) (r : Ref) (addon_id : String) : Heap :=
  Function.update heap r
    { heap r with props := propSet "__source" (.plain (.str addon_id)) (heap r).props }

/-- The function `overrides.define` of the proxy built for `addon_id`: a truthy
handler is stamped with `__source = addon_id` (which throws a TypeError in
strict mode when the handler is a primitive), then `define` runs. The state is
returned with the completion. -/
def proxyDefine (addon_id : String) (st : State) (key : String) (handler : Value) :
    State × Completion :=
  if handler.truthy then
    match handler with
    | .ref r => (define { st with heap := stamp st.heap r addon_id } key handler,
        .normal (.value .undefinedV))
    | .plain _ => (st, .typeError)
  else (define st key handler, .normal (.value .undefinedV))

/-- Calling `define` on the object `getAddonProxy(addon_id, ...)` returns: the
provider itself when `addon_id` is falsy, the proxy (whose `define` is
`overrides.define`) otherwise. -/
def addonDefine (addon_id : String) (st : State) (key : String) (handler : Value) :
    State × Completion :=
  if addon_id = "" then (define st key handler, .normal (.value .undefinedV))
  else proxyDefine addon_id st key handler

/-! ## Construction and lifecycle -/

/-- Collaborators the built-in handlers call: `sanitize` of `utilities/dom`, and
the bodies of the `child` and `markdown` handlers, which only manipulate the
DOM and the markdown service. -/
structure Env where
  sanitize : Option String → Ret
  child : Fn
  childOnHide : Fn
  markdown : Fn

/-- The value of an optional string as a primitive. -/
def optStr : Option String → Plain
  | some s => .str s
  | none => .undefined

/-- The built-in `json` handler. -/
def jsonHandler : Fn := fun target _ _ =>
  let title := target.data "title"
  let shown := (optStr title).truthy
  .normal (.nodes [
    (if shown then .elem (createElement "strong" none [] (.lit (title.getD "")))
      else .plain (optStr title)),
    .elem (createElement "code"
      (some ("block" ++ (if shown then " pd-t-05 border-t mg-t-05" else "")))
      [("fontFamily", "monospace"), ("textAlign", "left")]
      (match target.data "data" with
        | some d => .lit d
        | none => .absent))])

/-- The constructor: an empty registry to which the five built-in handlers are
assigned in source order; the functions it creates are placed at heap addresses
0 to 5 of the given heap. -/
def constructor (env : Env) (heap : Heap) : State :=
  let heap1 : Heap := fun r =>
    if r = 0 then { call := some jsonHandler, props := [] }
    else if r = 1 then { call := some env.child, props := [("onHide", .ref 5)] }
    else if r = 5 then { call := some env.childOnHide, props := [] }
    else if r = 2 then { call := some env.markdown, props := [] }
    else if r = 3 then
      { call := some (fun target _ _ => .normal (env.sanitize (target.data "title"))),
        props := [] }
    else if r = 4 then
      { call := some (fun target _ _ => .normal (.value (.plain (optStr (target.data "title"))))),
        props := [] }
    else heap r
  let types0 : TypesObj := { own := [], proto := .objectPrototype }
  let types := ((((types0.set "json" (.ref 0)).set "child" (.ref 1)).set "markdown" (.ref 2)).set
    "text" (.ref 3)).set "html" (.ref 4)
  { types := types, heap := heap1, container := none, tip_element := none,
    tips := none, next := 0, live := [], trace := [] }

/-- The method `getRoot()`: the first match of the selectors, else the body. -/
def getRoot (doc : Document) : Option Elem :=
  doc.sunlightRoot <|> doc.root <|> doc.clipsRoot <|> doc.body

/-- The method `_createInstance(container, klass, default_type, tip_container)`:
constructs a widget bound to `container`. Modelled from the spec: the
constructor `new Tooltip(...)` of `utilities/tooltip`, which is not part of the
sources at hand, yields a fresh live widget instance. -/
def _createInstance (st : State) (container : Option Elem) (klass : String)
    (default_type : String) (tip_container : Option Elem) : State × Nat :=
  let inst : Instance :=
    { id := st.next, parent := container, klass := klass, default_type := default_type,
      container := tip_container <|> container }
  ({ st with next := st.next + 1, live := st.live ++ [inst],
             trace := st.trace ++ [.created inst] }, inst.id)

/-- Modelled from the spec: `destroy()` of the widget primitive
(`utilities/tooltip`, not part of the sources at hand) ends the life of one
instance. -/
def destroyInstance (st : State) (id : Nat) : State :=
  { st with live := st.live.filter (fun i => i.id != id),
            trace := st.trace ++ [.destroyed id] }

/-- Modelled from the spec: `cleanup()` of the widget primitive
(`utilities/tooltip`, not part of the sources at hand) makes a structural
cleanup pass; the registry it sees at that moment is recorded. -/
def cleanupInstance (st : State) (id : Nat) : State :=
  { st with trace := st.trace ++ [.cleaned id st.types] }

/-- The method `cleanup()`: `this.tips.cleanup()`; `none` is the TypeError raised
when `this.tips` is still undefined. -/
def cleanup (st : State) : Option State :=
  match st.tips with
  | some id => some (cleanupInstance st id)
  | none => none

/-- The value `handler?.__source`. -/
def sourceOf (heap : Heap) (handler : Value) : JSVal :=
  match handler with
  | .plain .undefined => .undefinedV
  | .plain .null => .undefinedV
  | v => getField heap v.toJS "__source"

/-- One iteration of the loop of the `addon:fully-unload` listener. -/
def evictStep (heap : Heap) (addon_id : String) (acc : Nat × TypesObj)
    (entry : String × Value) : Nat × TypesObj :=
  if sourceOf heap entry.2 = .plain (.str addon_id) then
    (acc.1 + 1, acc.2.set entry.1 .undefinedV)
  else acc

/-- The loop of the listener over the snapshot `Object.entries(this.types)`. -/
def evictLoop (heap : Heap) (addon_id : String) (types : TypesObj) : Nat × TypesObj :=
  types.own.foldl (evictStep heap addon_id) (0, types)

/-- The listener of `addon:fully-unload` registered by `onEnable`. -/
def onAddonUnload (addon_id : String) (st : State) : Option State :=
  let (removed, types) := evictLoop st.heap addon_id st.types
  let st1 : State := { st with types := types }
  if removed != 0 then
    cleanup { st1 with trace := st1.trace ++ [Event.debug removed addon_id] }
  else some st1

/-- The method `onEnable()`. -/
def onEnable (doc : Document) (st : State) : State :=
  let container := getRoot doc
  let st1 : State := { st with trace := st.trace ++ [Event.listen "fullscreenchange"] }
  let st2 : State := { st1 with container := container, tip_element := container }
  let (st3, id) := _createInstance st2 container "ffz-tooltip" "text" none
  let st4 : State := { st3 with tips := some id }
  { st4 with trace := st4.trace ++ [Event.on ":cleanup", Event.on "addon:fully-unload"] }

/-- The method `onFSChange()`; `none` is the TypeError raised when `this.tips` is
still undefined. -/
def onFSChange (doc : Document) (st : State) : Option State :=
  let tip_element := doc.fullscreenElement <|> st.container
  if tip_element ≠ st.tip_element then
    match st.tips with
    | none => none
    | some old =>
      let st1 := destroyInstance st old
      let st2 : State := { st1 with tip_element := tip_element }
      let (st3, id) := _createInstance st2 tip_element "ffz-tooltip" "text" none
      some { st3 with tips := some id }
  else some st

/-! ## Dispatch -/

/-- The key under which `this.types[type]` looks: `undefined` is converted to the
string "undefined". -/
def toPropertyKey (type : Option String) : String :=
  type.getD "undefined"

/-- The method `delegatePopperConfig(default_type, target, tip, pop_opts)`. -/
def delegatePopperConfig (st : State) (default_type : Option String) (target : Target)
    (tip : Tip) (pop_opts : PopOpts) : Outcome :=
  let type := strOr (target.data "tooltipType") default_type
  let handler := st.types.get st.heap (toPropertyKey type)
  let pop_opts1 : PopOpts :=
    if (optStr (target.data "tooltipSide")).truthy then
      propSet "placement" (.plain (optStr (target.data "tooltipSide"))) pop_opts
    else pop_opts
  if handler.truthy && (getField st.heap handler "popperConfig").truthy then
    { result := invoke st.heap (getField st.heap handler "popperConfig") target tip
        (some pop_opts1),
      call := some { callee := getField st.heap handler "popperConfig", target := target,
                     tip := tip, opts := some pop_opts1 },
      tip := tip }
  else { result := .normal (.options pop_opts1), call := none, tip := tip }

/-- The method `delegateOnShow(default_type, target, tip)`. -/
def delegateOnShow (st : State) (default_type : Option String) (target : Target)
    (tip : Tip) : Outcome :=
  let type := strOr (target.data "tooltipType") default_type
  let handler := st.types.get st.heap (toPropertyKey type)
  if handler.truthy && (getField st.heap handler "onShow").truthy then
    match invoke st.heap (getField st.heap handler "onShow") target tip none with
    | .normal _ =>
      { result := .normal (.value .undefinedV),
        call := some { callee := getField st.heap handler "onShow", target := target,
                       tip := tip, opts := none },
        tip := tip }
    | c =>
      { result := c,
        call := some { callee := getField st.heap handler "onShow", target := target,
                       tip := tip, opts := none },
        tip := tip }
  else { result := .normal (.value .undefinedV), call := none, tip := tip }

/-- The method `delegateOnHide(default_type, target, tip)`. -/
def delegateOnHide (st : State) (default_type : Option String) (target : Target)
    (tip : Tip) : Outcome :=
  let type := strOr (target.data "tooltipType") default_type
  let handler := st.types.get st.heap (toPropertyKey type)
  if handler.truthy && (getField st.heap handler "onHide").truthy then
    match invoke st.heap (getField st.heap handler "onHide") target tip none with
    | .normal _ =>
      { result := .normal (.value .undefinedV),
        call := some { callee := getField st.heap handler "onHide", target := target,
                       tip := tip, opts := none },
        tip := tip }
    | c =>
      { result := c,
        call := some { callee := getField st.heap handler "onHide", target := target,
                       tip := tip, opts := none },
        tip := tip }
  else { result := .normal (.value .undefinedV), call := none, tip := tip }

/-- The method `checkDelayShow(default_type, target, tip)`. -/
def checkDelayShow (st : State) (default_type : Option String) (target : Target)
    (tip : Tip) : Outcome :=
  let type := strOr (target.data "tooltipType") default_type
  let handler := st.types.get st.heap (toPropertyKey type)
  if has st.heap handler "delayShow" then
    maybe_call st.heap (getField st.heap handler "delayShow") target tip
  else { result := .normal (.value (.plain (.num 0))), call := none, tip := tip }

/-- The method `checkDelayHide(default_type, target, tip)`. -/
def checkDelayHide (st : State) (default_type : Option String) (target : Target)
    (tip : Tip) : Outcome :=
  let type := strOr (target.data "tooltipType") default_type
  let handler := st.types.get st.heap (toPropertyKey type)
  if has st.heap handler "delayHide" then
    maybe_call st.heap (getField st.heap handler "delayHide") target tip
  else { result := .normal (.value (.plain (.num 0))), call := none, tip := tip }

/-- The method `checkInteractive(default_type, target, tip)`. -/
def checkInteractive (st : State) (default_type : Option String) (target : Target)
    (tip : Tip) : Outcome :=
  let type := strOr (target.data "tooltipType") default_type
  let handler := st.types.get st.heap (toPropertyKey type)
  if has st.heap handler "interactive" then
    maybe_call st.heap (getField st.heap handler "interactive") target tip
  else { result := .normal (.value (.plain (.bool false))), call := none, tip := tip }

/-- The method `checkHoverEvents(default_type, target, tip)`. -/
def checkHoverEvents (st : State) (default_type : Option String) (target : Target)
    (tip : Tip) : Outcome :=
  let type := strOr (target.data "tooltipType") default_type
  let handler := st.types.get st.heap (toPropertyKey type)
  if has st.heap handler "hover_events" then
    maybe_call st.heap (getField st.heap handler "hover_events") target tip
  else { result := .normal (.value (.plain (.bool false))), call := none, tip := tip }

/-- The block returned for an unhandled type. -/
def diagnosticBlock (target : Target) : Ret :=
  .nodes [
    .elem (createElement "strong" none [] (.lit "Unhandled Tooltip Type")),
    .elem (createElement "code" (some "tw-block pd-t-05 border-t mg-t-05")
      [("fontFamily", "monospace"), ("textAlign", "left")] (.json target.dataset))]

/-- The method `process(default_type, target, tip)`. -/
def process (st : State) (default_type : Option String) (target : Target)
    (tip : Tip) : Outcome :=
  let type := strOr (strOr (target.data "tooltipType") default_type) (some "text")
  let align := target.data "tooltipAlign"
  let handler := st.types.get st.heap (toPropertyKey type)
  let tip1 : Tip := if (optStr align).truthy then { tip with align := align } else tip
  if !handler.truthy then
    { result := .normal (diagnosticBlock target), call := none, tip := tip1 }
  else
    { result := invoke st.heap handler target tip1 none,
      call := some { callee := handler, target := target, tip := tip1, opts := none },
      tip := tip1 }

/-! ## The addon proxy -/

/-- Values of properties read on the provider or on its proxy. -/
inductive Member where
  | overrideDefine (addon_id : String)
  | overrideCleanup
  | field (name : String)
  | method (name : String)
  | providerClass
  | providerPrototype
  | inherited (name : String)
  | intrinsic (v : JSVal)
  deriving DecidableEq, Repr

/-- ToBoolean on a member value: functions and objects are truthy. -/
def Member.truthy : Member → Bool
  | .intrinsic v => v.truthy
  | _ => true

/-- Own fields the provider assigns to itself (constructor and `onEnable`). -/
def providerFields : List String :=
  ["types", "should_enable", "onFSChange", "container", "tip_element", "tips"]

/-- Methods of `TooltipProvider.prototype`. -/
def providerMethods : List String :=
  ["getAddonProxy", "onEnable", "define", "getRoot", "_createInstance", "onFSChange",
   "cleanup", "delegatePopperConfig", "delegateOnShow", "delegateOnHide", "checkDelayShow",
   "checkDelayHide", "checkInteractive", "checkHoverEvents", "process"]

/-- The read `Reflect.get(provider, prop)`: own fields, then
`TooltipProvider.prototype` (whose `constructor` is the class), then the members
the class inherits from `Module` (`base` tells which names `Module` provides;
it is not part of the sources at hand), then `Object.prototype`. -/
def providerGet (base : String → Bool) (prop : String) : Member :=
  if prop ∈ providerFields then .field prop
  else if prop = "constructor" then .providerClass
  else if prop ∈ providerMethods then .method prop
  else if base prop then .inherited prop
  else if prop = "__proto__" then .providerPrototype
  else .intrinsic (objectPrototypeGet prop)

/-- The read `overrides[prop]` on the object `overrides` (an empty object literal) after
`getAddonProxy` has filled it: `define`, `cleanup` in development mode, and
whatever the object inherits from `Object.prototype`. -/
def overridesGet (addon_id : String) (is_dev : Bool) (prop : String) : Member :=
  if prop = "define" then .overrideDefine addon_id
  else if prop = "cleanup" ∧ is_dev = true then .overrideCleanup
  else if prop = "__proto__" then .intrinsic .objectPrototype
  else .intrinsic (objectPrototypeGet prop)

/-- The `get` trap of the proxy: the value read and the warnings logged. -/
def proxyGet (addon_id : String) (is_dev : Bool) (base : String → Bool) (prop : String) :
    Member × List String :=
  let thing := overridesGet addon_id is_dev prop
  if thing.truthy then (thing, [])
  else if prop = "types" ∧ is_dev = true then
    (providerGet base prop,
      ["[DEV-CHECK] Accessed tooltips.types directly. Please use tooltips.define()"])
  else (providerGet base prop, [])

/-- Reading `prop` on the object returned by `getAddonProxy(addon_id, addon,
module)`, where `is_dev = DEBUG || addon?.dev`: the provider itself when
`addon_id` is falsy, the proxy otherwise. -/
def getAddonProxy (addon_id : String) (DEBUG addonDev : Bool) (base : String → Bool)
    (prop : String) : Member × List String :=
  if addon_id = "" then (providerGet base prop, [])
  else proxyGet addon_id (DEBUG || addonDev) base prop

/-! ## Concrete data used in the examples -/

/-- A collaborator environment for the examples. -/
def demoEnv : Env :=
  { sanitize := fun o => .value (.plain (optStr o)),
    child := fun _ _ _ => .normal (.value (.plain .null)),
    childOnHide := fun _ _ _ => .normal (.value .undefinedV),
    markdown := fun _ _ _ => .normal (.object 0) }

/-- A heap for the examples: address 10 is a function returning "Hello" with
`delayShow = 250`, address 11 a function returning "World", address 12 a
function returning its options with a field added; every other address is an
empty plain object. -/
def demoHeap : Heap := fun r =>
  if r = 10 then
    { call := some (fun _ _ _ => .normal (.value (.plain (.str "Hello")))),
      props := [("delayShow", .plain (.num 250)), ("popperConfig", .ref 12), ("onShow", .ref 11)] }
  else if r = 11 then
    { call := some (fun _ _ _ => .normal (.value (.plain (.str "World")))), props := [] }
  else if r = 12 then
    { call := some (fun _ _ o => .normal (.options (propSet "seen" (.plain (.bool true)) (o.getD [])))),
      props := [] }
  else { call := none, props := [] }

/-- The provider after construction over the example heap. -/
def demoState : State := constructor demoEnv demoHeap

/-- A target carrying the given dataset. -/
def demoTarget (dataset : List (String × String)) : Target := { id := 1, dataset := dataset }

/-- A fresh tip object. -/
def demoTip : Tip := { align := none, add_class := none }

/-- A document with a `#root` element and a body. -/
def demoDoc (fullscreenElement : Option Elem) : Document :=
  { sunlightRoot := none, root := some 100, clipsRoot := none, body := some 101,
    fullscreenElement := fullscreenElement }

/-! ## Definitions used in the statements -/

/-- The example provider after `onEnable`, with "addon-a" having registered the
types "__proto__" and "x1" through its proxy. -/
def demoProtoAddon : State :=
  (proxyDefine "addon-a" (proxyDefine "addon-a" (onEnable (demoDoc none) demoState)
    "__proto__" (.ref 10)).1 "x1" (.ref 11)).1

/-- The handler to which `type` resolves in the registry recorded by the last
widget cleanup of a trace, and the `__source` of that handler. -/
def lastCleanupResolves (st : State) (type : String) : Option (JSVal × JSVal) :=
  match st.trace.getLast? with
  | some (.cleaned _ types) =>
    some (types.get st.heap type,
      getField st.heap (types.get st.heap type) "__source")
  | _ => none

/-- A sequence of `fullscreenchange` events, each seeing its own document. -/
def runFS : List Document → State → Option State
  | [], st => some st
  | doc :: rest, st => (onFSChange doc st).bind (runFS rest)

/-- The lifecycle invariant: the container is the original root, and the only
live widget instance is the one `this.tips` names, bound to `this.tip_element`. -/
def Bound (root : Option Elem) (st : State) : Prop :=
  st.container = root
  ∧ ∃ inst : Instance, st.live = [inst] ∧ st.tips = some inst.id ∧ inst.parent = st.tip_element

/-! ## Basic facts about property lists and the registry object -/

theorem propGet_propSet_same {α : Type} (k : String) (v : α) (l : List (String × α)) :
    propGet k (propSet k v l) = some v := by
  induction l with
  | nil => simp [propSet, propGet]
  | cons e rest ih =>
    obtain ⟨k1, w⟩ := e
    by_cases h : k1 = k
    · simp [propSet, propGet, h]
    · simp [propSet, propGet, h, ih]

theorem propGet_propSet_ne {α : Type} (k k1 : String) (v : α) (l : List (String × α))
    (h : k1 ≠ k) : propGet k1 (propSet k v l) = propGet k1 l := by
  induction l with
  | nil =>
    have h2 : ¬ k = k1 := fun e => h e.symm
    simp [propSet, propGet, h2]
  | cons e rest ih =>
    obtain ⟨k2, w⟩ := e
    by_cases h2 : k2 = k
    · subst h2
      have h3 : ¬ k2 = k1 := fun e => h e.symm
      simp [propSet, propGet, h3]
    · by_cases h3 : k2 = k1
      · subst h3
        simp [propSet, propGet, h2]
      · simp [propSet, propGet, h2, h3, ih]

theorem strOr_some_nonempty (t : String) (d : Option String) (h : t ≠ "") :
    strOr (some t) d = some t := by
  simp [strOr, h]

theorem maybe_call_function (heap : Heap) (f : Ref) (body : Fn) (target : Target) (tip : Tip)
    (h : (heap f).call = some body) :
    (maybe_call heap (.ref f) target tip).result = body target tip none := by
  simp [maybe_call, isFunction, invoke, h]

theorem maybe_call_plain (heap : Heap) (p : Plain) (target : Target) (tip : Tip) :
    (maybe_call heap (.plain p) target tip).result = .normal (.value (.plain p)) := by
  simp [maybe_call, isFunction]

theorem truthy_ref (r : Ref) : (JSVal.ref r).truthy = true := rfl

theorem heapGet_own (heap : Heap) (r : Ref) (key : String) (v : Value)
    (h : propGet key (heap r).props = some v) : heapGet heap r key = v.toJS := by
  simp [heapGet, h]

/-! ## C1: dispatch for a registered type -/

/-- C1 (amended): in every registry state in which a non-empty type `t` maps to
the handler object at `r`, and for every target whose `dataset.tooltipType` is
`t`, `process` returns the result of calling the handler with `(target, tip)`
(the tip carrying the alignment the target declares); each of `checkDelayShow`,
`checkDelayHide`, `checkInteractive`, `checkHoverEvents` answers from the
handler's own field of that name through `maybe_call`; `delegatePopperConfig`
returns the result of the handler's `popperConfig(target, tip, options)`; and
`delegateOnShow` / `delegateOnHide` call the handler's `onShow` / `onHide` with
`(target, tip)`. -/
theorem dispatch_registered_handler (st : State) (t : String) (r : Ref)
    (d : Option String) (target : Target) (tip : Tip) (pop_opts : PopOpts)
    (hne : t ≠ "")
    (hreg : st.types.get st.heap t = .ref r)
    (hdecl : target.data "tooltipType" = some t) :
    ((process st d target tip).result
        = invoke st.heap (.ref r) target
            (if (optStr (target.data "tooltipAlign")).truthy
              then { tip with align := target.data "tooltipAlign" } else tip) none)
    ∧ (∀ v, propGet "delayShow" (st.heap r).props = some v →
        checkDelayShow st d target tip = maybe_call st.heap v.toJS target tip)
    ∧ (∀ v, propGet "delayHide" (st.heap r).props = some v →
        checkDelayHide st d target tip = maybe_call st.heap v.toJS target tip)
    ∧ (∀ v, propGet "interactive" (st.heap r).props = some v →
        checkInteractive st d target tip = maybe_call st.heap v.toJS target tip)
    ∧ (∀ v, propGet "hover_events" (st.heap r).props = some v →
        checkHoverEvents st d target tip = maybe_call st.heap v.toJS target tip)
    ∧ ((heapGet st.heap r "popperConfig").truthy = true →
        (delegatePopperConfig st d target tip pop_opts).result
          = invoke st.heap (heapGet st.heap r "popperConfig") target tip
              (some (if (optStr (target.data "tooltipSide")).truthy
                then propSet "placement" (.plain (optStr (target.data "tooltipSide"))) pop_opts
                else pop_opts)))
    ∧ ((heapGet st.heap r "onShow").truthy = true →
        (delegateOnShow st d target tip).call
          = some { callee := heapGet st.heap r "onShow", target := target, tip := tip,
                   opts := none })
    ∧ ((heapGet st.heap r "onHide").truthy = true →
        (delegateOnHide st d target tip).call
          = some { callee := heapGet st.heap r "onHide", target := target, tip := tip,
                   opts := none }) := by
  have hk : toPropertyKey (strOr (target.data "tooltipType") d) = t := by
    rw [hdecl, strOr_some_nonempty t d hne]; rfl
  have hk2 : toPropertyKey (strOr (strOr (target.data "tooltipType") d) (some "text")) = t := by
    rw [hdecl, strOr_some_nonempty t d hne, strOr_some_nonempty t _ hne]; rfl
  refine ⟨?_, ?_, ?_, ?_, ?_, ?_, ?_, ?_⟩
  · simp [process, hk2, hreg, truthy_ref]
  · intro v hv
    simp [checkDelayShow, hk, hreg, has, hv, getField, heapGet_own _ _ _ _ hv]
  · intro v hv
    simp [checkDelayHide, hk, hreg, has, hv, getField, heapGet_own _ _ _ _ hv]
  · intro v hv
    simp [checkInteractive, hk, hreg, has, hv, getField, heapGet_own _ _ _ _ hv]
  · intro v hv
    simp [checkHoverEvents, hk, hreg, has, hv, getField, heapGet_own _ _ _ _ hv]
  · intro hp
    simp [delegatePopperConfig, hk, hreg, truthy_ref, getField, hp]
  · intro hp
    simp only [delegateOnShow, hk, hreg, truthy_ref, getField, hp, Bool.and_self, if_true]
    split <;> rfl
  · intro hp
    simp only [delegateOnHide, hk, hreg, truthy_ref, getField, hp, Bool.and_self, if_true]
    split <;> rfl

/-- Witness of `dispatch_registered_handler`: the type "greeting" registered with
the example handler at address 10. -/
theorem dispatch_registered_handler_witness :
    ((process (define demoState "greeting" (.ref 10)) (some "text")
        (demoTarget [("tooltipType", "greeting")]) demoTip).result
      = .normal (.value (.plain (.str "Hello"))))
    ∧ (checkDelayShow (define demoState "greeting" (.ref 10)) (some "text")
        (demoTarget [("tooltipType", "greeting")]) demoTip).result
      = .normal (.value (.plain (.num 250))) := by
  have h := dispatch_registered_handler (define demoState "greeting" (.ref 10)) "greeting" 10
    (some "text") (demoTarget [("tooltipType", "greeting")]) demoTip []
    (by decide) (by decide) (by decide)
  refine ⟨?_, ?_⟩
  · rw [h.1]; decide
  · rw [h.2.1 (.plain (.num 250)) (by decide)]; decide

/-- C1 (as stated) fails for the empty type: with the empty string registered to
the example handler and a target declaring `tooltipType = ""`, `process`
answers from the default type "text" and does not call the registered handler;
`checkDelayShow` returns 0 although the handler has `delayShow = 250`. -/
theorem dispatch_empty_type_counterexample :
    (define demoState "" (.ref 10)).types.get (define demoState "" (.ref 10)).heap "" = .ref 10
    ∧ (demoTarget [("tooltipType", "")]).data "tooltipType" = some ""
    ∧ (process (define demoState "" (.ref 10)) (some "text")
        (demoTarget [("tooltipType", "")]) demoTip).result
      ≠ invoke (define demoState "" (.ref 10)).heap (.ref 10)
          (demoTarget [("tooltipType", "")]) demoTip none
    ∧ (process (define demoState "" (.ref 10)) (some "text")
        (demoTarget [("tooltipType", "")]) demoTip).call
      = some { callee := .ref 3, target := demoTarget [("tooltipType", "")], tip := demoTip,
               opts := none }
    ∧ propGet "delayShow" ((define demoState "" (.ref 10)).heap 10).props
        = some (.plain (.num 250))
    ∧ (checkDelayShow (define demoState "" (.ref 10)) (some "text")
        (demoTarget [("tooltipType", "")]) demoTip).result
      = .normal (.value (.plain (.num 0))) := by
  decide

/-! ## C2: unregistered types -/

/-- Supporting fact for C2: whenever the read `this.types[type]` yields a falsy
value, `process` returns the diagnostic block and the four checks return their
defaults `0`, `0`, `false`, `false`. -/
theorem unresolved_type_defaults (st : State) (d : Option String) (target : Target)
    (tip : Tip)
    (h1 : (st.types.get st.heap (toPropertyKey
      (strOr (strOr (target.data "tooltipType") d) (some "text")))).truthy = false)
    (h2 : (st.types.get st.heap (toPropertyKey
      (strOr (target.data "tooltipType") d))).truthy = false) :
    (process st d target tip).result = .normal (diagnosticBlock target)
    ∧ (checkDelayShow st d target tip).result = .normal (.value (.plain (.num 0)))
    ∧ (checkDelayHide st d target tip).result = .normal (.value (.plain (.num 0)))
    ∧ (checkInteractive st d target tip).result = .normal (.value (.plain (.bool false)))
    ∧ (checkHoverEvents st d target tip).result = .normal (.value (.plain (.bool false))) := by
  have hh : ∀ key, has st.heap (st.types.get st.heap (toPropertyKey
      (strOr (target.data "tooltipType") d))) key = false := by
    intro key
    cases hv : st.types.get st.heap (toPropertyKey (strOr (target.data "tooltipType") d)) with
    | ref r => rw [hv] at h2; simp [JSVal.truthy] at h2
    | _ => simp [has]
  refine ⟨?_, ?_, ?_, ?_, ?_⟩
  · simp [process, h1]
  · simp [checkDelayShow, hh]
  · simp [checkDelayHide, hh]
  · simp [checkInteractive, hh]
  · simp [checkHoverEvents, hh]

/-- C2 (failing input): in the freshly constructed provider no handler is
registered under "constructor" (the registry has no such entry), yet for a
target declaring `tooltipType = "constructor"` the read `this.types[type]`
yields the function `Object` inherited from `Object.prototype`, and `process`
returns the result of calling it instead of the diagnostic block. -/
theorem process_inherited_name_not_diagnostic :
    propGet "constructor" demoState.types.own = none
    ∧ (process demoState (some "text") (demoTarget [("tooltipType", "constructor")])
        demoTip).result
      = .intrinsic "Object" (demoTarget [("tooltipType", "constructor")]) demoTip none
    ∧ (process demoState (some "text") (demoTarget [("tooltipType", "constructor")])
        demoTip).result
      ≠ .normal (diagnosticBlock (demoTarget [("tooltipType", "constructor")]))
    ∧ (process demoState (some "text") (demoTarget [("tooltipType", "nothing")])
        demoTip).result
      = .normal (diagnosticBlock (demoTarget [("tooltipType", "nothing")])) := by
  decide

/-! ## C8: the addon proxy -/

/-- Supporting fact for C8: a property that `overrides` neither defines nor
inherits as a truthy value is read from the provider. -/
theorem proxy_forwards (addon_id : String) (is_dev : Bool) (base : String → Bool)
    (prop : String) (h : (overridesGet addon_id is_dev prop).truthy = false) :
    (proxyGet addon_id is_dev base prop).1 = providerGet base prop := by
  unfold proxyGet
  simp only [h]
  by_cases h2 : prop = "types" ∧ is_dev = true <;> simp [h2]

/-- C8 (failing input): reading `constructor` on the proxy built for "addon-x"
yields the function `Object`, found on the `overrides` object through its
prototype, while the provider's own `constructor` is the `TooltipProvider`
class; the same happens for `__proto__`. A name that neither object overrides,
such as `process`, is forwarded. -/
theorem proxy_constructor_not_forwarded (DEBUG addonDev : Bool) (base : String → Bool) :
    (getAddonProxy "addon-x" DEBUG addonDev base "constructor").1
      = .intrinsic (.builtin "Object")
    ∧ providerGet base "constructor" = .providerClass
    ∧ (getAddonProxy "addon-x" DEBUG addonDev base "constructor").1
      ≠ providerGet base "constructor"
    ∧ (getAddonProxy "addon-x" DEBUG addonDev base "process").1
      = providerGet base "process" := by
  refine ⟨?_, ?_, ?_, ?_⟩
  · simp [getAddonProxy, proxyGet, overridesGet, objectPrototypeGet, Member.truthy,
      JSVal.truthy]
  · simp [providerGet, providerFields]
  · simp [getAddonProxy, proxyGet, overridesGet, objectPrototypeGet, Member.truthy,
      JSVal.truthy, providerGet, providerFields]
  · have h : (overridesGet "addon-x" (DEBUG || addonDev) "process").truthy = false := by
      simp [overridesGet, objectPrototypeGet, Member.truthy, JSVal.truthy, Plain.truthy]
    simp [getAddonProxy, proxy_forwards _ _ _ _ h]

/-! ## C7: one lookup for all queries -/

/-- With no default type and no declared type, `process` falls back to "text" and
calls the built-in handler at address 3, while the other queries read the
registry at the key "undefined". -/
theorem process_text_fallback :
    ((process demoState none (demoTarget []) demoTip).call).map Call.callee = some (.ref 3)
    ∧ demoState.types.get demoState.heap (toPropertyKey (strOr ((demoTarget []).data
        "tooltipType") none)) = .undefinedV := by
  decide

/-! ## C9: the side override -/

theorem set_own_other (o : TypesObj) (k t : String) (h v : Value) (hk : k ≠ t)
    (hown : propGet t o.own = some v) : propGet t (o.set k h).own = some v := by
  have hk2 : t ≠ k := fun e => hk e.symm
  unfold TypesObj.set
  cases hko : propGet k o.own with
  | some w => simp [propGet_propSet_ne _ _ _ _ hk2, hown]
  | none =>
    by_cases hp : k = "__proto__" ∧ o.proto ≠ .null
    · simp only [hp, and_self, if_true, ne_eq, not_false_eq_true]
      cases h with
      | ref r => simpa using hown
      | plain p => cases p <;> simpa using hown
    · simp only [hp, if_false]
      simp [propGet_propSet_ne _ _ _ _ hk2, hown]

theorem get_of_own (heap : Heap) (o : TypesObj) (t : String) (v : Value)
    (hown : propGet t o.own = some v) : o.get heap t = v.toJS := by
  simp [TypesObj.get, hown]

/-- C4 (amended): when the registry holds an entry for type `t` whose handler is
the object at `r`, a call of `define(k, h)` through any addon's proxy with a key
`k` other than `t` and a handler `h` other than that same object leaves the
entry for `t`, the handler object (all its fields) and its recorded owner
`__source` exactly as they were, whether the call returns or throws. -/
theorem foreign_define_frame (A : String) (st : State) (t k : String) (r : Ref) (h : Value)
    (hown : propGet t st.types.own = some (.ref r)) (hk : k ≠ t) (hh : h ≠ .ref r) :
    propGet t (proxyDefine A st k h).1.types.own = some (.ref r)
    ∧ (proxyDefine A st k h).1.types.get (proxyDefine A st k h).1.heap t = .ref r
    ∧ (proxyDefine A st k h).1.heap r = st.heap r
    ∧ sourceOf (proxyDefine A st k h).1.heap (.ref r) = sourceOf st.heap (.ref r) := by
  have key : propGet t (proxyDefine A st k h).1.types.own = some (.ref r)
      ∧ (proxyDefine A st k h).1.heap r = st.heap r := by
    unfold proxyDefine
    by_cases ht : h.truthy = true
    · simp only [ht, if_true]
      cases h with
      | plain p => exact ⟨hown, rfl⟩
      | ref r1 =>
        have hr : r ≠ r1 := fun e => hh (by rw [e])
        refine ⟨set_own_other _ _ _ _ _ hk hown, ?_⟩
        simp [define, stamp, Function.update, hr]
    · simp only [ht]
      exact ⟨set_own_other _ _ _ _ _ hk hown, rfl⟩
  refine ⟨key.1, ?_, key.2, ?_⟩
  · simpa [Value.toJS] using get_of_own (proxyDefine A st k h).1.heap _ t _ key.1
  · simp [sourceOf, getField, heapGet, Value.toJS, key.2]

/-- Witness of `foreign_define_frame`: "addon-a" registering "a1" leaves the
entry "b1" of "addon-b" alone. -/
theorem foreign_define_frame_witness :
    (proxyDefine "addon-a" (proxyDefine "addon-b" demoState "b1" (.ref 10)).1 "a1"
        (.ref 11)).1.types.get
      (proxyDefine "addon-a" (proxyDefine "addon-b" demoState "b1" (.ref 10)).1 "a1"
        (.ref 11)).1.heap "b1" = .ref 10
    ∧ sourceOf (proxyDefine "addon-a" (proxyDefine "addon-b" demoState "b1" (.ref 10)).1 "a1"
        (.ref 11)).1.heap (.ref 10) = .plain (.str "addon-b") := by
  have h := foreign_define_frame "addon-a" (proxyDefine "addon-b" demoState "b1" (.ref 10)).1
    "b1" "a1" 10 (.ref 11) (by decide) (by decide) (by decide)
  refine ⟨h.2.1, ?_⟩
  rw [h.2.2.2]; decide

/-- C4 (as stated) fails: after "addon-b" registers "x1" with the handler at
address 10, a `define("x1", ...)` through the proxy of "addon-a" replaces that
handler, and a `define("y", ...)` of the same handler object through the proxy
of "addon-a" rewrites its recorded owner. -/
theorem foreign_define_counterexample :
    (proxyDefine "addon-b" demoState "x1" (.ref 10)).1.types.get
        (proxyDefine "addon-b" demoState "x1" (.ref 10)).1.heap "x1" = .ref 10
    ∧ (proxyDefine "addon-a" (proxyDefine "addon-b" demoState "x1" (.ref 10)).1 "x1"
        (.ref 11)).1.types.get
      (proxyDefine "addon-a" (proxyDefine "addon-b" demoState "x1" (.ref 10)).1 "x1"
        (.ref 11)).1.heap "x1" = .ref 11
    ∧ sourceOf (proxyDefine "addon-b" demoState "x1" (.ref 10)).1.heap (.ref 10)
        = .plain (.str "addon-b")
    ∧ sourceOf (proxyDefine "addon-a" (proxyDefine "addon-b" demoState "x1" (.ref 10)).1 "y"
        (.ref 10)).1.heap (.ref 10) = .plain (.str "addon-a") := by
  decide

/-! ## The eviction loop -/

theorem propGet_isSome_of_mem {α : Type} (l : List (String × α)) (e : String × α)
    (h : e ∈ l) : (propGet e.1 l).isSome = true := by
  induction l with
  | nil => cases h
  | cons e1 rest ih =>
    obtain ⟨k1, w⟩ := e1
    by_cases hk : k1 = e.1
    · simp [propGet, hk]
    · have hm : e ∈ rest := by
        rcases List.mem_cons.mp h with h1 | h1
        · exact absurd (by rw [h1]) hk
        · exact h1
      simp [propGet, hk, ih hm]

theorem propGet_propSet_isSome {α : Type} (k k1 : String) (v : α) (l : List (String × α))
    (h : (propGet k1 l).isSome = true) : (propGet k1 (propSet k v l)).isSome = true := by
  by_cases hk : k1 = k
  · subst hk; simp [propGet_propSet_same]
  · rw [propGet_propSet_ne _ _ _ _ hk]; exact h

theorem set_of_own (o : TypesObj) (k : String) (v : Value)
    (h : (propGet k o.own).isSome = true) :
    o.set k v = { o with own := propSet k v o.own } := by
  unfold TypesObj.set
  cases hk : propGet k o.own with
  | some w => rfl
  | none => rw [hk] at h; cases h

/-- The loop of the listener, characterised entry by entry: the prototype slot is
not touched, the count is the number of visited entries whose handler carries
`__source === addon_id`, a key with such an entry ends as `undefined`, and every
other key keeps its entry. -/
theorem evict_fold (heap : Heap) (A : String) :
    ∀ (l : List (String × Value)) (n : Nat) (o : TypesObj),
      (∀ e ∈ l, (propGet e.1 o.own).isSome = true) →
      (l.foldl (evictStep heap A) (n, o)).2.proto = o.proto
      ∧ (l.foldl (evictStep heap A) (n, o)).1
          = n + (l.filter (fun e => decide (sourceOf heap e.2 = .plain (.str A)))).length
      ∧ ∀ key : String,
          ((∃ e ∈ l, e.1 = key ∧ sourceOf heap e.2 = .plain (.str A)) →
            propGet key (l.foldl (evictStep heap A) (n, o)).2.own = some .undefinedV)
          ∧ ((¬ ∃ e ∈ l, e.1 = key ∧ sourceOf heap e.2 = .plain (.str A)) →
            propGet key (l.foldl (evictStep heap A) (n, o)).2.own = propGet key o.own) := by
  intro l
  induction l with
  | nil =>
    intro n o _
    refine ⟨rfl, by simp, fun key => ⟨?_, fun _ => rfl⟩⟩
    rintro ⟨e, he, _⟩
    cases he
  | cons e rest ih =>
    intro n o hpres
    have hrest : ∀ e1 ∈ rest, (propGet e1.1 o.own).isSome = true :=
      fun e1 h1 => hpres e1 (List.mem_cons_of_mem _ h1)
    by_cases hs : sourceOf heap e.2 = .plain (.str A)
    · have hstep : evictStep heap A (n, o) e
          = (n + 1, { o with own := propSet e.1 .undefinedV o.own }) := by
        simp [evictStep, hs, set_of_own o e.1 .undefinedV (hpres e (List.mem_cons_self _ _))]
      have hrest2 : ∀ e1 ∈ rest,
          (propGet e1.1 ({ o with own := propSet e.1 .undefinedV o.own } : TypesObj).own).isSome
            = true :=
        fun e1 h1 => propGet_propSet_isSome _ _ _ _ (hrest e1 h1)
      obtain ⟨ip, ic, ik⟩ := ih (n + 1) { o with own := propSet e.1 .undefinedV o.own } hrest2
      rw [List.foldl_cons, hstep]
      refine ⟨ip, ?_, ?_⟩
      · rw [ic]; simp [List.filter_cons, hs]; omega
      · intro key
        refine ⟨?_, ?_⟩
        · rintro ⟨e1, he1, hk1, hs1⟩
          by_cases hin : ∃ e2 ∈ rest, e2.1 = key ∧ sourceOf heap e2.2 = .plain (.str A)
          · exact (ik key).1 hin
          · rw [(ik key).2 hin]
            rcases List.mem_cons.mp he1 with h1 | h1
            · subst h1; subst hk1
              exact propGet_propSet_same _ _ _
            · exact absurd ⟨e1, h1, hk1, hs1⟩ hin
        · intro hno
          have hin : ¬ ∃ e2 ∈ rest, e2.1 = key ∧ sourceOf heap e2.2 = .plain (.str A) := by
            rintro ⟨e2, h2, hk2, hs2⟩
            exact hno ⟨e2, List.mem_cons_of_mem _ h2, hk2, hs2⟩
          have hne : key ≠ e.1 := by
            intro heq
            exact hno ⟨e, List.mem_cons_self _ _, heq.symm, hs⟩
          rw [(ik key).2 hin]
          exact propGet_propSet_ne _ _ _ _ hne
    · have hstep : evictStep heap A (n, o) e = (n, o) := by
        simp [evictStep, hs]
      obtain ⟨ip, ic, ik⟩ := ih n o hrest
      rw [List.foldl_cons, hstep]
      refine ⟨ip, ?_, ?_⟩
      · rw [ic]; simp [List.filter_cons, hs]
      · intro key
        refine ⟨?_, ?_⟩
        · rintro ⟨e1, he1, hk1, hs1⟩
          rcases List.mem_cons.mp he1 with h1 | h1
          · subst h1; exact absurd hs1 hs
          · exact (ik key).1 ⟨e1, h1, hk1, hs1⟩
        · intro hno
          have hin : ¬ ∃ e2 ∈ rest, e2.1 = key ∧ sourceOf heap e2.2 = .plain (.str A) := by
            rintro ⟨e2, h2, hk2, hs2⟩
            exact hno ⟨e2, List.mem_cons_of_mem _ h2, hk2, hs2⟩
          exact (ik key).2 hin

/-- The eviction loop run on the registry's own entries. -/
theorem evictLoop_spec (heap : Heap) (A : String) (o : TypesObj) :
    (evictLoop heap A o).2.proto = o.proto
    ∧ (evictLoop heap A o).1
        = (o.own.filter (fun e => decide (sourceOf heap e.2 = .plain (.str A)))).length
    ∧ ∀ key : String,
        ((∃ e ∈ o.own, e.1 = key ∧ sourceOf heap e.2 = .plain (.str A)) →
          propGet key (evictLoop heap A o).2.own = some .undefinedV)
        ∧ ((¬ ∃ e ∈ o.own, e.1 = key ∧ sourceOf heap e.2 = .plain (.str A)) →
          propGet key (evictLoop heap A o).2.own = propGet key o.own) := by
  have h := evict_fold heap A o.own 0 o (fun e he => propGet_isSome_of_mem _ e he)
  unfold evictLoop
  refine ⟨h.1, ?_, h.2.2⟩
  rw [h.2.1]; simp

theorem mem_of_propGet {α : Type} (l : List (String × α)) (key : String) (v : α)
    (h : propGet key l = some v) : (key, v) ∈ l := by
  induction l with
  | nil => simp [propGet] at h
  | cons e rest ih =>
    obtain ⟨k1, w⟩ := e
    by_cases hk : k1 = key
    · simp [propGet, hk] at h
      simp [hk, h]
    · simp [propGet, hk] at h
      exact List.mem_cons_of_mem _ (ih h)

/-- The listener after `onEnable` (the widget `this.tips` exists): it returns, the
registry is the result of the loop, and the trace grows by a debug line and one
widget cleanup exactly when the loop removed something. -/
theorem onAddonUnload_enabled (A : String) (st : State) (id : Nat) (h : st.tips = some id) :
    onAddonUnload A st = some
      { st with
        types := (evictLoop st.heap A st.types).2,
        trace := st.trace ++
          (if (evictLoop st.heap A st.types).1 = 0 then []
           else [Event.debug (evictLoop st.heap A st.types).1 A,
                 Event.cleaned id (evictLoop st.heap A st.types).2]) } := by
  unfold onAddonUnload
  by_cases h0 : (evictLoop st.heap A st.types).1 = 0
  · simp [h0]
  · simp [h0, cleanup, h, cleanupInstance]

/-! ## C3: eviction when an addon is fully unloaded -/

theorem set_own_same (o : TypesObj) (t : String) (v : Value) (ht : t ≠ "__proto__") :
    propGet t (o.set t v).own = some v := by
  unfold TypesObj.set
  cases hko : propGet t o.own with
  | some w => simp [propGet_propSet_same]
  | none => simp [ht, propGet_propSet_same]

/-- Supporting fact for C5: while the registry's prototype is `Object.prototype`,
for every type `t` other than `__proto__`, after `define(t, h1)` and
`define(t, h2)` the registry entry for `t` is exactly `h2`, and after
`define(t, undefined)` the type is unregistered: the read yields `undefined` and
`process` returns the diagnostic block. -/
theorem define_last_writer (st : State) (t : String) (h1 h2 : Value) (ht : t ≠ "__proto__")
    (_hproto : st.types.proto = .objectPrototype) :
    propGet t (define (define st t h1) t h2).types.own = some h2
    ∧ (define (define st t h1) t h2).types.get (define (define st t h1) t h2).heap t
        = h2.toJS
    ∧ (define (define st t h1) t .undefinedV).types.get (define (define st t h1) t .undefinedV).heap t
        = .undefinedV
    ∧ ∀ (d : Option String) (target : Target) (tip : Tip),
        toPropertyKey (strOr (strOr (target.data "tooltipType") d) (some "text")) = t →
        (process (define (define st t h1) t .undefinedV) d target tip).result
          = .normal (diagnosticBlock target) := by
  have e2 : propGet t (define (define st t h1) t h2).types.own = some h2 :=
    set_own_same _ t h2 ht
  have e3 : propGet t (define (define st t h1) t .undefinedV).types.own = some .undefinedV :=
    set_own_same _ t .undefinedV ht
  have g3 : (define (define st t h1) t .undefinedV).types.get
      (define (define st t h1) t .undefinedV).heap t = .undefinedV := by
    simpa [Value.toJS] using get_of_own _ _ t _ e3
  refine ⟨e2, get_of_own _ _ t _ e2, g3, ?_⟩
  intro d target tip hkey
  simp only [process, hkey]
  simp [g3, JSVal.truthy, Plain.truthy]

/-- C5 (failing input): after `define("__proto__", h1)` with the handler at
address 10, `define("__proto__", undefined)` does not unregister the type: the
registry still resolves "__proto__" to that handler, `process` calls it and
`checkDelayShow` answers its `delayShow`. -/
theorem define_proto_not_unregistered :
    (define (define demoState "__proto__" (.ref 10)) "__proto__" .undefinedV).types.get
        (define (define demoState "__proto__" (.ref 10)) "__proto__" .undefinedV).heap "__proto__"
      = .ref 10
    ∧ (process (define (define demoState "__proto__" (.ref 10)) "__proto__" .undefinedV)
        (some "text") (demoTarget [("tooltipType", "__proto__")]) demoTip).result
      = .normal (.value (.plain (.str "Hello")))
    ∧ (process (define (define demoState "__proto__" (.ref 10)) "__proto__" .undefinedV)
        (some "text") (demoTarget [("tooltipType", "__proto__")]) demoTip).result
      ≠ .normal (diagnosticBlock (demoTarget [("tooltipType", "__proto__")]))
    ∧ (checkDelayShow (define (define demoState "__proto__" (.ref 10)) "__proto__" .undefinedV)
        (some "text") (demoTarget [("tooltipType", "__proto__")]) demoTip).result
      = .normal (.value (.plain (.num 250))) := by
  decide

/-! ## C10: cleanup after eviction -/

/-- Supporting fact for C10: after `onEnable`, handling `addon:fully-unload` for
`A` invokes the widget's cleanup once when the loop removed at least one entry
and not at all otherwise; the registry the cleanup sees is the fully mutated
one, in which no entry holds a handler with `__source === A`. -/
theorem unload_cleanup_after_eviction (A : String) (st : State) (id : Nat)
    (h : st.tips = some id) :
    ∃ st1, onAddonUnload A st = some st1
      ∧ st1.trace = st.trace ++
          (if (st.types.own.filter
                (fun e => decide (sourceOf st.heap e.2 = .plain (.str A)))).length = 0
            then []
            else [Event.debug (st.types.own.filter
                    (fun e => decide (sourceOf st.heap e.2 = .plain (.str A)))).length A,
                  Event.cleaned id st1.types])
      ∧ ∀ (key : String) (v : Value), propGet key st1.types.own = some v →
          sourceOf st1.heap v ≠ .plain (.str A) := by
  obtain ⟨_, hc, hk⟩ := evictLoop_spec st.heap A st.types
  refine ⟨_, onAddonUnload_enabled A st id h, ?_, ?_⟩
  · simp only [hc]
  · intro key v hv
    by_cases hex : ∃ e ∈ st.types.own, e.1 = key ∧ sourceOf st.heap e.2 = .plain (.str A)
    · have h2 : propGet key (evictLoop st.heap A st.types).2.own = some .undefinedV := (hk key).1 hex
      have h3 : v = .undefinedV := by
        have h4 : propGet key (evictLoop st.heap A st.types).2.own = some v := hv
        rw [h2] at h4
        exact (Option.some.inj h4).symm
      subst h3
      simp [sourceOf]
    · have h2 : propGet key st.types.own = some v := by
        rw [← (hk key).2 hex]; exact hv
      intro hs
      exact hex ⟨(key, v), mem_of_propGet _ _ _ h2, rfl, hs⟩

/-- C10 (failing input): "addon-a" registered "__proto__" and "x1" through its
proxy; when its unload is handled, "x1" is removed and the widget cleanup runs,
but at that moment the type "__proto__" still resolves to the handler at
address 10, whose recorded owner is "addon-a". -/
theorem unload_cleanup_sees_owned_handler :
    (onAddonUnload "addon-a" demoProtoAddon).bind (fun s => lastCleanupResolves s "x1")
      = some (.undefinedV, .undefinedV)
    ∧ (onAddonUnload "addon-a" demoProtoAddon).bind
        (fun s => lastCleanupResolves s "__proto__")
      = some (.ref 10, .plain (.str "addon-a")) := by
  decide

/-! ## C6: one live widget instance -/

theorem onEnable_bound (doc : Document) (st : State) (h : st.live = []) :
    Bound (getRoot doc) (onEnable doc st) := by
  refine ⟨rfl, ⟨_, ?_, rfl, rfl⟩⟩
  simp [onEnable, _createInstance, h]

/-- One `onFSChange` in a bound state: when the computed target differs, the
current instance is destroyed, then a new one is created and bound to the
target; when it is the same, nothing happens. -/
theorem onFSChange_step (root : Option Elem) (doc : Document) (st : State)
    (hb : Bound root st) :
    ((doc.fullscreenElement <|> root) ≠ st.tip_element →
      ∃ old new st2, st.live = [old] ∧ st.tips = some old.id
        ∧ onFSChange doc st = some st2
        ∧ st2.trace = st.trace ++ [Event.destroyed old.id, Event.created new]
        ∧ st2.live = [new] ∧ st2.tips = some new.id
        ∧ new.parent = (doc.fullscreenElement <|> root)
        ∧ st2.tip_element = (doc.fullscreenElement <|> root)
        ∧ st2.container = root)
    ∧ ((doc.fullscreenElement <|> root) = st.tip_element → onFSChange doc st = some st) := by
  obtain ⟨hc, inst, hl, ht, hp⟩ := hb
  subst hc
  refine ⟨?_, ?_⟩
  · intro hne
    refine ⟨inst, Instance.mk st.next (doc.fullscreenElement <|> st.container) "ffz-tooltip"
      "text" (none <|> (doc.fullscreenElement <|> st.container)),
      ({ (_createInstance
            { destroyInstance st inst.id with
              tip_element := doc.fullscreenElement <|> st.container }
            (doc.fullscreenElement <|> st.container) "ffz-tooltip" "text" none).1 with
          tips := some st.next } : State),
      hl, ht, ?_, ?_, ?_, rfl, rfl, rfl, rfl⟩
    · simp only [onFSChange, hne, ht, if_true, ne_eq, not_false_eq_true]
      rfl
    · simp [_createInstance, destroyInstance]
    · simp [_createInstance, destroyInstance, hl]
  · intro heq
    simp [onFSChange, heq]

theorem onFSChange_bound (root : Option Elem) (doc : Document) (st : State)
    (hb : Bound root st) : ∃ st2, onFSChange doc st = some st2 ∧ Bound root st2 := by
  by_cases h : (doc.fullscreenElement <|> root) = st.tip_element
  · exact ⟨st, (onFSChange_step root doc st hb).2 h, hb⟩
  · obtain ⟨old, new, st2, _, _, h3, _, h5, h6, h7, h8, h9⟩ :=
      (onFSChange_step root doc st hb).1 h
    exact ⟨st2, h3, h9, new, h5, h6, by rw [h7, h8]⟩

theorem runFS_bound (root : Option Elem) (docs : List Document) :
    ∀ st : State, Bound root st → ∃ st2, runFS docs st = some st2 ∧ Bound root st2 := by
  induction docs with
  | nil => intro st hb; exact ⟨st, rfl, hb⟩
  | cons doc rest ih =>
    intro st hb
    obtain ⟨st1, h1, hb1⟩ := onFSChange_bound root doc st hb
    obtain ⟨st2, h2, hb2⟩ := ih st1 hb1
    exact ⟨st2, by simp [runFS, h1, h2], hb2⟩

/-- C6: after `onEnable` (run on a provider that has no widget yet) and any
sequence of `onFSChange` calls, whatever `document.fullscreenElement` is at each
call, every call returns and exactly one widget instance is live, the one
`this.tips` names, bound to `this.tip_element`. In the state reached, a further
call whose computed target (the fullscreen element if present, else the original
root) differs from the bound target first destroys the current instance, then
constructs the new one and binds it to that target, leaving it the only live
instance; a call whose computed target equals the bound one changes nothing. -/
theorem fullscreen_single_instance (doc0 : Document) (st0 : State) (docs : List Document)
    (h0 : st0.live = []) :
    ∃ st, runFS docs (onEnable doc0 st0) = some st
      ∧ (∃ inst : Instance, st.live = [inst] ∧ st.tips = some inst.id
          ∧ inst.parent = st.tip_element)
      ∧ ∀ doc : Document,
          ((doc.fullscreenElement <|> getRoot doc0) ≠ st.tip_element →
            ∃ old new st2, st.live = [old] ∧ st.tips = some old.id
              ∧ onFSChange doc st = some st2
              ∧ st2.trace = st.trace ++ [Event.destroyed old.id, Event.created new]
              ∧ st2.live = [new] ∧ st2.tips = some new.id
              ∧ new.parent = (doc.fullscreenElement <|> getRoot doc0)
              ∧ st2.tip_element = (doc.fullscreenElement <|> getRoot doc0)
              ∧ st2.container = getRoot doc0)
          ∧ ((doc.fullscreenElement <|> getRoot doc0) = st.tip_element →
            onFSChange doc st = some st) := by
  obtain ⟨st, hrun, hb⟩ := runFS_bound (getRoot doc0) docs _ (onEnable_bound doc0 st0 h0)
  exact ⟨st, hrun, hb.2, fun doc => onFSChange_step (getRoot doc0) doc st hb⟩

/-- Witness of `fullscreen_single_instance`: entering fullscreen on element 7,
a repeated event, then leaving fullscreen. -/
theorem fullscreen_single_instance_witness :
    demoState.live = []
    ∧ ∃ st, runFS [demoDoc (some 7), demoDoc (some 7), demoDoc none]
          (onEnable (demoDoc none) demoState) = some st
      ∧ ∃ inst : Instance, st.live = [inst] ∧ st.tips = some inst.id
          ∧ inst.parent = st.tip_element := by
  refine ⟨by decide, ?_⟩
  obtain ⟨st, h1, h2, _⟩ := fullscreen_single_instance (demoDoc none) demoState
    [demoDoc (some 7), demoDoc (some 7), demoDoc none] (by decide)
  exact ⟨st, h1, h2⟩

end Tooltips
